import Mathlib

set_option maxRecDepth 4000

/-!
Verification development for the `delta` map-assistant backend
(`server/app/routes/search.py`): a shallow embedding in Lean 4 of the
intent-routing and geospatial building retrieval/ranking engine, together
with theorems settling the specification claims against it.

Conventions of the embedding:
* Python floats are modelled by exact rationals (`ℚ`); the single
  transcendental computation (`math.cos` in `expand_bbox_from_center`) is
  modelled twice: exactly over `ℝ` with `Real.cos` for the bounding-box
  theorem, and inside the router via an abstract `cosD : ℚ → ℚ` parameter
  standing for `math.cos ∘ math.radians`.
* Python strings are `String`; the string operations the route uses
  (`str.lower`, `str.replace(pat, "")`, `str.strip`, the `in` substring
  test, `float(...)`) are modelled by executable functions below.  The
  source data is ASCII, so `str.lower` is modelled as ASCII lowering, and
  `float(...)` as the plain decimal forms (sign, digits, optional point);
  on any other shape it is `none`, modelling a raised `ValueError`.
* External collaborators (the intent parser, the geocoder, the Overpass
  endpoints, the answer generators) are oracles passed in as values.
* A Python dict is an association list looked up with `List.lookup`;
  a raised exception is the `.error` case of `Except`.
-/

/-! ## Python string-operation models -/

/-- Is `pat` an initial segment of `l`?  (Helper for the substring test.) -/
def leadsWith : List Char → List Char → Bool
  | [], _ => true
  | _ :: _, [] => false
  | c :: cs, d :: ds => c == d && leadsWith cs ds

/-- Model of the Python substring test `pat in s` on character lists:
`pat` occurs contiguously somewhere in `l` (the empty pattern matches). -/
def hasSubList (pat : List Char) : List Char → Bool
  | [] => pat.isEmpty
  | c :: rest => leadsWith pat (c :: rest) || hasSubList pat rest

/-- Model of the Python substring test `pat in s` on strings. -/
def hasSubStr (pat s : String) : Bool :=
  hasSubList pat.data s.data

/-- ASCII lowering of one character (`A`–`Z` shifted to `a`–`z`). -/
def lowerChar (c : Char) : Char :=
  if 65 ≤ c.toNat ∧ c.toNat ≤ 90 then Char.ofNat (c.toNat + 32) else c

/-- Model of Python `str.lower()` (the data handled by the route is ASCII). -/
def pyLower (s : String) : String :=
  ⟨s.data.map lowerChar⟩

/-- Scan deleting every non-overlapping occurrence of `pat`, left to right;
`skip` counts characters of an already-matched occurrence still to drop. -/
def dropSubAux (pat : List Char) : List Char → Nat → List Char
  | [], _ => []
  | _ :: rest, skip + 1 => dropSubAux pat rest skip
  | c :: rest, 0 =>
      if pat ≠ [] ∧ leadsWith pat (c :: rest) then dropSubAux pat rest (pat.length - 1)
      else c :: dropSubAux pat rest 0

/-- Model of Python `s.replace(pat, "")`: delete every occurrence of `pat`. -/
def pyReplaceDel (s pat : String) : String :=
  ⟨dropSubAux pat.data s.data 0⟩

/-- Python whitespace for `str.strip()`. -/
def isPySpace (c : Char) : Bool :=
  c == ' ' || c == '\t' || c == '\n' || c == '\r'

/-- Model of Python `str.strip()`: drop whitespace from both ends. -/
def pyStrip (s : String) : String :=
  ⟨((s.data.dropWhile isPySpace).reverse.dropWhile isPySpace).reverse⟩

/-- Decimal digit test. -/
def isDigitChar (c : Char) : Bool :=
  '0' ≤ c && c ≤ '9'

/-- Value of a digit list read in base 10 (non-digits contribute garbage;
callers check `isDigitChar` first). -/
def digitsToNat (l : List Char) : Nat :=
  l.foldl (fun acc c => acc * 10 + (c.toNat - 48)) 0

/-- Unsigned decimal forms accepted by Python `float(...)`:
`digits`, `digits.`, `digits.digits`, `.digits`. -/
def pyFloatCore (l : List Char) : Option ℚ :=
  let intPart := l.takeWhile isDigitChar
  let rest := l.dropWhile isDigitChar
  match rest with
  | [] => if intPart.isEmpty then none else some (digitsToNat intPart)
  | '.' :: frac =>
      if frac.all isDigitChar ∧ ¬(intPart.isEmpty ∧ frac.isEmpty) then
        some ((digitsToNat intPart : ℚ) + (digitsToNat frac : ℚ) / 10 ^ frac.length)
      else none
  | _ => none

/-- Model of Python `float(s)`: surrounding whitespace ignored, optional
sign, plain decimal forms; `none` models a raised `ValueError`.
(Exponent/`inf`/`nan` forms never occur in the data handled here.) -/
def pyFloat? (s : String) : Option ℚ :=
  match (pyStrip s).data with
  | '-' :: rest => (pyFloatCore rest).map Neg.neg
  | '+' :: rest => pyFloatCore rest
  | l => pyFloatCore l

/-- Python truthiness of an optional string (`None` and `""` are falsy). -/
def pyStrOpt (o : Option String) : Bool :=
  o.getD "" ≠ ""

/-- Python truthiness of an optional number (`None` and `0` are falsy). -/
def pyTruthyNum (o : Option ℚ) : Bool :=
  o.getD 0 ≠ 0

/-- Python truthiness of an optional list (`None` and `[]` are falsy). -/
def pyTruthyList (o : Option (List ℚ)) : Bool :=
  o.getD [] ≠ []

/-! ## Data model: GeoJSON-style building features -/

/-- Tag map of a feature / OSM element (a Python dict of strings). -/
abbrev Props := List (String × String)

/-- GeoJSON geometry: a `type` plus rings of `[lon, lat]` vertex pairs. -/
structure Geometry where
  type : String
  coordinates : List (List (ℚ × ℚ))
deriving DecidableEq, Repr

/-- Normalized building feature (`{"type": "Feature", "id": ..,
"geometry": .., "properties": ..}`); the geometry key may be absent. -/
structure Feature where
  id : Option Int
  geometry : Option Geometry
  properties : Props
deriving DecidableEq, Repr

/-- Result of `calculate_building_features`: the dict
`{"area": .., "height": ..}`. -/
structure BMetrics where
  area : ℚ
  height : ℚ
deriving DecidableEq, Repr

/-- Shoelace cross-product sum over a ring, indices taken cyclically:
`Σᵢ (xᵢ·yᵢ₊₁ − xᵢ₊₁·yᵢ)` (the loop of lines 33–37 of `search.py`). -/
def shoelaceSum (ring : List (ℚ × ℚ)) : ℚ :=
  ((ring.zip (ring.rotate 1)).map (fun pq => pq.1.1 * pq.2.2 - pq.2.1 * pq.1.2)).sum

/-- The stripped height string used by `calculate_building_features`:
`str(h).replace("m", "").replace("ft", "").strip()`. -/
def heightStrip (h : String) : String :=
  pyStrip (pyReplaceDel (pyReplaceDel h "m") "ft")

/-- Embedding of `calculate_building_features` (search.py lines 20–62):
area by the shoelace formula over the first ring scaled by 111320² to
square meters, and an estimated height from the `height` tag (feet
converted at 0.3048 when a foot marker is present) falling back to
`building:levels` × 3.0, with parse failures yielding 0. -/
def calculate_building_features (feature : Feature) : BMetrics :=
  let props := feature.properties
  let area : ℚ :=
    match feature.geometry with
    | none => 0
    | some g =>
        match g.coordinates with
        | [] => 0
        | ring :: _ =>
            if ring.length > 0 then
              if ring.length > 2 then |shoelaceSum ring| / 2 * 111320 * 111320 else 0
            else 0
  let height : ℚ :=
    match props.lookup "height" with
    | some h =>
        match pyFloat? (heightStrip h) with
        | some v => if hasSubStr "ft" (pyLower h) then v * (3048 / 10000) else v
        | none => 0
    | none =>
        match props.lookup "building:levels" with
        | some ls =>
            match pyFloat? ls with
            | some v => v * 3
            | none => 0
        | none => 0
  { area := area, height := height }

/-- `building_attributes` payload of an intent (the keys the route reads). -/
structure BAttrs where
  sort_by : Option String
  limit : Option Nat
deriving DecidableEq, Repr

/-- Does the feature's geometry have `type == "Polygon"`?
(`feat.get("geometry", {}).get("type") != "Polygon"` skips it.) -/
def featIsPolygon (f : Feature) : Bool :=
  match f.geometry with
  | some g => g.type == "Polygon"
  | none => false

/-- The ranking key `rank_buildings` sorts by (descending), as a function
of the precomputed metrics: `height`, `area`, `area / max(height, 3)` for
`underdeveloped`, and `area` by default. -/
def rankKeyM (sort_by : Option String) (m : BMetrics) : ℚ :=
  if sort_by == some "height" then m.height
  else if sort_by == some "area" then m.area
  else if sort_by == some "underdeveloped" then m.area / max m.height 3
  else m.area

/-- The ranking key as a function of the feature itself. -/
def rankKey (sort_by : Option String) (f : Feature) : ℚ :=
  rankKeyM sort_by (calculate_building_features f)

/-- The descending-by-key ordering used by `rank_buildings` on
feature/metrics pairs: `a` may precede `b` when `b`'s key does not exceed
`a`'s. -/
def rankRel (sort_by : Option String) (a b : Feature × BMetrics) : Prop :=
  rankKeyM sort_by b.2 ≤ rankKeyM sort_by a.2

instance (sort_by : Option String) : DecidableRel (rankRel sort_by) :=
  fun _ _ => inferInstanceAs (Decidable (_ ≤ _))

instance (sort_by : Option String) : IsTrans (Feature × BMetrics) (rankRel sort_by) :=
  ⟨fun _ _ _ hab hbc => le_trans hbc hab⟩

instance (sort_by : Option String) : IsTotal (Feature × BMetrics) (rankRel sort_by) :=
  ⟨fun a b => (le_total (rankKeyM sort_by b.2) (rankKeyM sort_by a.2)).imp id id⟩

/-- Embedding of `rank_buildings` (search.py lines 65–98): keep only
polygon-geometry features, pair each with its computed metrics, stable
sort descending by the requested criterion (Python `list.sort` with
`reverse=True` is the stable descending sort, and the stable sort is
unique, so the structurally recursive stable `insertionSort` embeds it),
and return the features. -/
def rank_buildings (features : List Feature) (building_attributes : Option BAttrs) :
    List Feature :=
  let bwf : List (Feature × BMetrics) :=
    (features.filter featIsPolygon).map fun f => (f, calculate_building_features f)
  let sort_by := building_attributes.bind BAttrs.sort_by
  let sorted := bwf.insertionSort (rankRel sort_by)
  sorted.map Prod.fst

/-- Embedding of `get_building_center` (search.py lines 101–112): the
arithmetic mean of the first ring's longitudes and latitudes, or the
sentinel `[0, 0]` when the coordinate list is missing or empty. -/
def get_building_center (feature : Feature) : List ℚ :=
  match feature.geometry with
  | none => [0, 0]
  | some g =>
      match g.coordinates with
      | [] => [0, 0]
      | ring :: _ =>
          if ring.length > 0 then
            [((ring.map Prod.fst).sum) / ring.length, ((ring.map Prod.snd).sum) / ring.length]
          else [0, 0]

/-! ## Bounding boxes -/

/-- A query rectangle `{south, west, north, east}` in degrees. -/
structure Bbox where
  south : ℚ
  west : ℚ
  north : ℚ
  east : ℚ
deriving DecidableEq, Repr

/-- Rational-world embedding of `expand_bbox_from_center` (search.py lines
115–127), with `cosD` standing for `math.cos ∘ math.radians` (the exact
real-valued version is `expand_bbox_from_center` below); `center` is the
`[lon, lat]` pair. -/
def expand_bbox_from_centerQ (cosD : ℚ → ℚ) (center : ℚ × ℚ) (radius_km : ℚ) : Bbox :=
  let lat_offset := radius_km / 111
  let lng_offset := radius_km / (111 * cosD center.2)
  { south := center.2 - lat_offset
    west := center.1 - lng_offset
    north := center.2 + lat_offset
    east := center.1 + lng_offset }

/-- Real-valued bounding box, for the exact model of the cosine. -/
structure BboxR where
  south : ℝ
  west : ℝ
  north : ℝ
  east : ℝ

/-- Exact embedding of `expand_bbox_from_center` (search.py lines 115–127)
over the reals: `lat_offset = r/111`,
`lng_offset = r / (111 · cos(radians(lat)))`; `center` is `(lon, lat)`. -/
noncomputable def expand_bbox_from_center (center : ℝ × ℝ) (radius_km : ℝ) : BboxR :=
  let lat_offset := radius_km / 111
  let lng_offset := radius_km / (111 * Real.cos (center.2 * Real.pi / 180))
  { south := center.2 - lat_offset
    west := center.1 - lng_offset
    north := center.2 + lat_offset
    east := center.1 + lng_offset }

/-- Embedding of the bounding-box size limit of `fetch_buildings_in_bbox`
(search.py lines 142–155): when either axis span exceeds `0.01`, recenter
a `0.01`-sized box on the original box's centroid. -/
def clampBbox (b : Bbox) : Bbox :=
  let max_bbox_size : ℚ := 1 / 100
  let lat_diff := b.north - b.south
  let lng_diff := b.east - b.west
  if lat_diff > max_bbox_size ∨ lng_diff > max_bbox_size then
    let lat_center := (b.south + b.north) / 2
    let lng_center := (b.west + b.east) / 2
    let half_size := max_bbox_size / 2
    { south := lat_center - half_size
      west := lng_center - half_size
      north := lat_center + half_size
      east := lng_center + half_size }
  else b

/-! ## Raw spatial elements and normalization -/

/-- One vertex of an Overpass `out geom` geometry (`{"lat": .., "lon": ..}`). -/
structure OsmPoint where
  lat : ℚ
  lon : ℚ
deriving DecidableEq, Repr

/-- A member record of a relation element. -/
structure OsmMember where
  role : Option String
  type : Option String
  geometry : Option (List OsmPoint)
deriving DecidableEq, Repr

/-- A raw element of an Overpass response (`way`, `node` or `relation`);
optional fields model optional dict keys, `tags`/`members` default to
empty as with `elem.get("tags", {})` / `elem.get("members", [])`. -/
structure OsmElement where
  type : Option String
  id : Option Int
  geometry : Option (List OsmPoint)
  lat : Option ℚ
  lon : Option ℚ
  tags : Props
  members : List OsmMember
deriving DecidableEq, Repr

/-- Close a nonempty ring if its first vertex differs from its last
(`if coords[0] != coords[-1]: coords.append(coords[0])`). -/
def closeRing (coords : List (ℚ × ℚ)) : List (ℚ × ℚ) :=
  if coords.headD (0, 0) ≠ coords.getLastD (0, 0) then coords ++ [coords.headD (0, 0)]
  else coords

/-- The square ring synthesized around a point feature at half-width
`offset` (search.py lines 265–271 and 459–465). -/
def squareRing (lon lat offset : ℚ) : List (ℚ × ℚ) :=
  [(lon - offset, lat - offset), (lon + offset, lat - offset),
   (lon + offset, lat + offset), (lon - offset, lat + offset),
   (lon - offset, lat - offset)]

/-- Embedding of one iteration of the element loop of
`fetch_buildings_in_bbox` (search.py lines 214–332), producing at most one
feature; `.error ()` models the uncaught `ValueError` raised by
`float(height.replace("m", "").replace(" ", "") or 0)` on a node whose
`height` tag strips to a non-numeric, nonempty string (line 256–258). -/
def normElement (elem : OsmElement) : Except Unit (Option Feature) :=
  if elem.type == some "way" ∧ elem.geometry.isSome then
    let geometry := elem.geometry.getD []
    if geometry.length < 3 then .ok none
    else
      let coords := geometry.map fun p => (p.lon, p.lat)
      if coords.length < 3 then .ok none
      else
        .ok (some { id := elem.id
                    geometry := some { type := "Polygon", coordinates := [closeRing coords] }
                    properties := elem.tags })
  else if elem.type == some "node" ∧ elem.lat.isSome ∧ elem.lon.isSome then
    let lat := elem.lat.getD 0
    let lon := elem.lon.getD 0
    let tags := elem.tags
    let height := (tags.lookup "height").getD ""
    let is_tower := tags.lookup "man_made" == some "tower"
      || tags.lookup "tourism" == some "attraction"
    let offsetE : Except Unit ℚ :=
      if is_tower then .ok (8 / 10000)
      else if height ≠ "" then
        let stripped := pyReplaceDel (pyReplaceDel height "m") " "
        match (if stripped = "" then some 0 else pyFloat? stripped) with
        | none => .error ()
        | some v => .ok (if v > 100 then 6 / 10000 else 3 / 10000)
      else .ok (3 / 10000)
    match offsetE with
    | .error e => .error e
    | .ok offset =>
        .ok (some { id := elem.id
                    geometry := some { type := "Polygon"
                                       coordinates := [squareRing lon lat offset] }
                    properties := tags })
  else if elem.type == some "relation" then
    let members := elem.members
    let tags := elem.tags
    let outer_coords := members.foldl
      (fun acc m =>
        if m.role == some "outer" ∧ m.type == some "way" then
          match m.geometry with
          | some g => if g ≠ [] then acc ++ g.map (fun p => (p.lon, p.lat)) else acc
          | none => acc
        else acc) []
    if outer_coords.length ≥ 3 then
      .ok (some { id := elem.id
                  geometry := some { type := "Polygon"
                                     coordinates := [closeRing outer_coords] }
                  properties := tags })
    else if members ≠ [] then
      match members.find? (fun m => (m.geometry.getD []).length ≥ 3) with
      | some m =>
          let coords := (m.geometry.getD []).map fun p => (p.lon, p.lat)
          .ok (some { id := elem.id
                      geometry := some { type := "Polygon"
                                         coordinates := [closeRing coords] }
                      properties := tags })
      | none => .ok none
    else .ok none
  else .ok none

/-- Embedding of the whole normalization loop: left-to-right over the
elements, collecting the produced features, propagating the first raised
exception. -/
def normalizeElements : List OsmElement → Except Unit (List Feature)
  | [] => .ok []
  | e :: rest => do
      let f? ← normElement e
      let others ← normalizeElements rest
      match f? with
      | some f => .ok (f :: others)
      | none => .ok others

/-! ## The Spatial Fetcher with endpoint failover -/

/-- Body of one Overpass endpoint's successful JSON response. -/
structure OverpassData where
  elements : List OsmElement
deriving DecidableEq, Repr

/-- Embedding of the endpoint failover loop (search.py lines 184–205):
`outcomes` lists, in endpoint order, each endpoint's outcome were it
attempted (`none` = transport error or timeout).  Returns the data used
(`none` when every endpoint failed) together with how many endpoints were
actually attempted (the loop breaks on the first success). -/
def try_endpoints : List (Option OverpassData) → Option OverpassData × Nat
  | [] => (none, 0)
  | some d :: _ => (some d, 1)
  | none :: rest =>
      let r := try_endpoints rest
      (r.1, r.2 + 1)

/-- Embedding of `fetch_buildings_in_bbox` (search.py lines 130–334):
clamp the box, query the endpoints in order (the `net` oracle maps the
clamped box and the `include_towers` flag to the per-endpoint outcomes),
return `[]` when all endpoints failed, otherwise normalize the elements
of the single successful response. -/
def fetch_buildings_in_bbox (net : Bbox → Bool → List (Option OverpassData))
    (bbox : Bbox) (include_towers : Bool) : Except Unit (List Feature) :=
  let b := clampBbox bbox
  match (try_endpoints (net b include_towers)).1 with
  | none => .ok []
  | some data => normalizeElements data.elements

/-! ## The Intent Router -/

/-- A geocoding result (`GeocodingResult` of `geocoding_service.py`),
restricted to the fields the search route reads. -/
structure Location where
  lat : ℚ
  lon : ℚ
  display_name : String
  location_type : String
deriving DecidableEq, Repr

/-- Embedding of `calculate_zoom_for_location_type`
(`geocoding_service.py` lines 215–228). -/
def calculate_zoom_for_location_type (location_type : String) : Nat :=
  if location_type == "city" then 12
  else if location_type == "administrative" then 12
  else if location_type == "town" then 13
  else if location_type == "village" then 14
  else if location_type == "neighbourhood" then 15
  else if location_type == "building" then 17
  else if location_type == "landmark" then 16
  else if location_type == "amenity" then 16
  else if location_type == "house" then 18
  else 15

/-- `weather_settings` payload (only the `type` key is read). -/
structure WeatherSettings where
  type : Option String
deriving DecidableEq, Repr

/-- `time_settings` payload (only the `preset` key is read). -/
structure TimeSettings where
  preset : Option String
deriving DecidableEq, Repr

/-- `camera_settings` payload (the keys the route reads). -/
structure CameraSettings where
  zoom_delta : Option ℚ
  pitch : Option ℚ
  bearing_delta : Option ℚ
deriving DecidableEq, Repr

/-- `question_context` payload (only `target_name` is read). -/
structure QuestionContext where
  target_name : Option String
deriving DecidableEq, Repr

/-- A classified intent as produced by the external parser
(`OpenAIService.parse_search_intent`); optional fields model missing
dict keys. -/
structure Intent where
  action : Option String
  location_query : Option String
  building_attributes : Option BAttrs
  search_radius_km : Option ℚ
  question_context : Option QuestionContext
  weather_settings : Option WeatherSettings
  time_settings : Option TimeSettings
  camera_settings : Option CameraSettings
deriving DecidableEq, Repr

/-- Request body of the POST `/search` endpoint (`SearchRequest`). -/
structure SearchRequest where
  query : String
  current_bounds : Option Bbox
  current_center : Option (List ℚ)
deriving DecidableEq, Repr

/-- JSON-like values appearing in the route's response dicts. -/
inductive JVal where
  | null
  | bool (b : Bool)
  | num (q : ℚ)
  | str (s : String)
  | numList (qs : List ℚ)
  | feat (f : Feature)
  | featList (fs : List Feature)
  | intentVal (i : Intent)
  | weatherVal (w : WeatherSettings)
  | timeVal (t : TimeSettings)
  | cameraVal (c : CameraSettings)
  | propsVal (p : Props)
deriving DecidableEq, Repr

/-- A response dict: keys in insertion order. -/
abbrev Response := List (String × JVal)

/-- `None`-or-list coordinate value. -/
def optNumList : Option (List ℚ) → JVal
  | none => .null
  | some l => .numList l

/-- `None`-or-feature value. -/
def optFeat : Option Feature → JVal
  | none => .null
  | some f => .feat f

/-- The external collaborators consumed by the route, as oracles:
the geocoder, the Overpass endpoints (per clamped query, the ordered
per-endpoint outcomes), the cosine used by the bbox calculator, and the
two LLM answer generators. -/
structure Services where
  geocode : String → Option Location
  overpass : Bbox → Bool → List (Option OverpassData)
  cosD : ℚ → ℚ
  qa_answer : String → Option Feature → QuestionContext → String
  search_answer : String → Option Feature → Option String → Intent → String

/-- The landmark probe test of the `find_building` handler (search.py
lines 605–615): the resolved landmark is `poi`/`place`-typed and its
lowered display name contains a tall-structure keyword. -/
def structureClassHit (lm : Location) : Bool :=
  (lm.location_type == "poi" || lm.location_type == "place")
    && ["tower", "skyscraper", "building", "centre", "center"].any
         (fun kw => hasSubStr kw (pyLower lm.display_name))

/-- The question handler's name match (search.py lines 524–528):
case-insensitive substring containment in either direction against the
candidate's `name` property (missing name = `""`). -/
def nameMatchQ (target_name : String) (b : Feature) : Bool :=
  let name := pyLower ((b.properties.lookup "name").getD "")
  hasSubStr (pyLower target_name) name || hasSubStr name (pyLower target_name)

/-- The question handler's candidate selection (search.py lines 522–532):
on a nonempty candidate list, the first name match, else the first
candidate; `none` when the list is empty. -/
def questionPick (target_name : String) (buildings : List Feature) : Option Feature :=
  if buildings.isEmpty then none
  else
    match buildings.find? (nameMatchQ target_name) with
    | some b => some b
    | none => buildings.head?

/-- `x or default` on an optional number (Python `or`: `None` and `0`
both fall through to the default). -/
def pyOrNum (o : Option ℚ) (d : ℚ) : ℚ :=
  if pyTruthyNum o then o.getD 0 else d

/-- The shared tail of the `find_building` handler (search.py lines
646–711), entered after the landmark short-circuit did not fire: fall
back to the caller's viewport, prompt when no geography is available,
otherwise fetch, rank, and assemble the fly-to response.  Returns the
response paired with the list of `fetch_buildings_in_bbox` calls made
(arguments as passed). -/
def find_building_core (svc : Services) (intent : Intent) (req : SearchRequest)
    (battrs : Option BAttrs) (sort_by : Option String)
    (search_center₀ : Option (List ℚ)) (location_name : Option String)
    (bbox₀ : Option Bbox) : Except Unit (Response × List (Bbox × Bool)) :=
  let vp := bbox₀.isNone ∧ req.current_bounds.isSome
  let bbox : Option Bbox := if vp then req.current_bounds else bbox₀
  let search_center : Option (List ℚ) :=
    if vp ∧ pyTruthyList req.current_center then req.current_center else search_center₀
  match bbox with
  | none =>
      .ok ([("intent", .intentVal intent),
            ("answer", .str "I need a location or visible map area to search buildings."),
            ("coordinates", .null), ("target", .null), ("candidates", .featList []),
            ("should_fly_to", .bool false), ("zoom_level", .null)], [])
  | some b =>
      let include_towers := sort_by == some "height"
      match fetch_buildings_in_bbox svc.overpass b include_towers with
      | .error e => .error e
      | .ok buildings =>
          if buildings.isEmpty then
            let answer := svc.search_answer req.query none location_name intent
            .ok ([("intent", .intentVal intent), ("answer", .str answer),
                  ("coordinates", optNumList search_center), ("target", .null),
                  ("candidates", .featList []),
                  ("should_fly_to", .bool (pyTruthyList search_center)),
                  ("zoom_level", if pyTruthyList search_center then .num 15 else .null)],
                 [(b, include_towers)])
          else
            let ranked := rank_buildings buildings battrs
            let target := ranked.head?
            let limit := (battrs.bind BAttrs.limit).getD 5
            let candidates := if ranked.length > 1 then (ranked.drop 1).take (limit - 1) else []
            let answer := svc.search_answer req.query target location_name intent
            let target_center : Option (List ℚ) :=
              match target with
              | some t => some (get_building_center t)
              | none => search_center
            .ok ([("intent", .intentVal intent), ("answer", .str answer),
                  ("coordinates", optNumList target_center), ("target", optFeat target),
                  ("candidates", .featList candidates), ("should_fly_to", .bool true),
                  ("zoom_level", .num 17)], [(b, include_towers)])

/-- The `search_area` handler (search.py lines 713–752), also the default
arm for unrecognized actions: requires a caller viewport, fetches without
towers, ranks by area, never flies. -/
def search_area_core (svc : Services) (intent : Intent) (req : SearchRequest) :
    Except Unit (Response × List (Bbox × Bool)) :=
  match req.current_bounds with
  | none =>
      .ok ([("intent", .intentVal intent),
            ("answer", .str "I need a visible map area to explore buildings."),
            ("coordinates", .null), ("target", .null), ("candidates", .featList []),
            ("should_fly_to", .bool false), ("zoom_level", .null)], [])
  | some cb =>
      match fetch_buildings_in_bbox svc.overpass cb false with
      | .error e => .error e
      | .ok buildings =>
          if buildings.isEmpty then
            .ok ([("intent", .intentVal intent),
                  ("answer", .str "No buildings found in this area."),
                  ("coordinates", optNumList req.current_center), ("target", .null),
                  ("candidates", .featList []), ("should_fly_to", .bool false),
                  ("zoom_level", .null)], [(cb, false)])
          else
            let ranked := rank_buildings buildings (some { sort_by := some "area", limit := none })
            let target := ranked.head?
            let candidates := if ranked.length > 1 then (ranked.drop 1).take 5 else []
            let coordinates : Option (List ℚ) :=
              match target with
              | some t => some (get_building_center t)
              | none => req.current_center
            .ok ([("intent", .intentVal intent),
                  ("answer", .str ("Found " ++ toString buildings.length ++ " buildings in this area.")),
                  ("coordinates", optNumList coordinates), ("target", optFeat target),
                  ("candidates", .featList candidates), ("should_fly_to", .bool false),
                  ("zoom_level", .null)], [(cb, false)])

/-- The `set_weather` handler (search.py lines 359–377). -/
def set_weather_core (intent : Intent) : Response :=
  let ws := intent.weather_settings.getD { type := some "clear" }
  let wtype := ws.type.getD "clear"
  let answer :=
    if wtype == "rain" then "Making it rain..."
    else if wtype == "snow" then "Adding snow effect..."
    else if wtype == "clear" then "Clearing the weather..."
    else "Setting weather to " ++ wtype
  [("intent", .intentVal intent), ("action", .str "set_weather"),
   ("answer", .str answer), ("weather_settings", .weatherVal ws),
   ("coordinates", .null), ("target", .null), ("candidates", .featList []),
   ("should_fly_to", .bool false), ("zoom_level", .null)]

/-- The `set_time` handler (search.py lines 380–397). -/
def set_time_core (intent : Intent) : Response :=
  let ts := intent.time_settings.getD { preset := some "day" }
  let preset := ts.preset.getD "day"
  let answer :=
    if preset == "night" then "Switching to night mode..."
    else if preset == "day" then "Switching to day mode..."
    else "Setting time to " ++ preset
  [("intent", .intentVal intent), ("action", .str "set_time"),
   ("answer", .str answer), ("time_settings", .timeVal ts),
   ("coordinates", .null), ("target", .null), ("candidates", .featList []),
   ("should_fly_to", .bool false), ("zoom_level", .null)]

/-- The `camera_control` handler (search.py lines 400–426); note the
Python truthiness tests (`zoom_delta` of 0 falls through, `pitch == 0`
is checked before `pitch`'s truthiness). -/
def camera_control_core (intent : Intent) : Response :=
  let cs := intent.camera_settings.getD { zoom_delta := none, pitch := none, bearing_delta := none }
  let answer :=
    if pyTruthyNum cs.zoom_delta then
      if cs.zoom_delta.getD 0 > 0 then "Zooming in..." else "Zooming out..."
    else if cs.pitch == some 0 then "Switching to bird's eye view..."
    else if pyTruthyNum cs.pitch then "Adjusting camera tilt..."
    else if pyTruthyNum cs.bearing_delta then "Rotating the view..."
    else "Adjusting camera..."
  [("intent", .intentVal intent), ("action", .str "camera_control"),
   ("answer", .str answer), ("camera_settings", .cameraVal cs),
   ("coordinates", .null), ("target", .null), ("candidates", .featList []),
   ("should_fly_to", .bool false), ("zoom_level", .null)]

/-- The `delete_building` handler (search.py lines 429–503): geocode the
location, size a deletion rectangle by the keyword heuristic, or prompt. -/
def delete_building_core (svc : Services) (intent : Intent) : Response :=
  if pyStrOpt intent.location_query then
    let lq := intent.location_query.getD ""
    match svc.geocode lq with
    | some location =>
        let lat := location.lat
        let lon := location.lon
        let towers := ["cn tower", "eiffel tower", "empire state", "burj khalifa",
                       "tokyo tower", "space needle"]
        let large_buildings := ["rogers centre", "skydome", "stadium", "arena", "convention"]
        let query_lower := pyLower lq
        let offset : ℚ :=
          if towers.any (fun t => hasSubStr t query_lower) then 4 / 10000
          else if large_buildings.any (fun b => hasSubStr b query_lower) then 12 / 10000
          else 6 / 10000
        let delete_polygon : Feature :=
          { id := none
            geometry := some { type := "Polygon", coordinates := [squareRing lon lat offset] }
            properties := [("name", lq)] }
        [("intent", .intentVal intent), ("action", .str "delete_building"),
         ("answer", .str ("Deleting " ++ lq ++ "...")),
         ("coordinates", .numList [lon, lat]), ("target", .null),
         ("delete_target", .feat delete_polygon), ("candidates", .featList []),
         ("should_fly_to", .bool true), ("zoom_level", .num 17)]
    | none =>
        [("intent", .intentVal intent), ("action", .str "delete_building"),
         ("answer", .str ("Couldn't find location: " ++ lq)),
         ("coordinates", .null), ("target", .null), ("candidates", .featList []),
         ("should_fly_to", .bool false), ("zoom_level", .null)]
  else
    [("intent", .intentVal intent), ("action", .str "delete_building"),
     ("answer", .str "Select a building to delete or specify a location (e.g., 'delete the building at 123 Main St')"),
     ("coordinates", .null), ("target", .null), ("candidates", .featList []),
     ("should_fly_to", .bool false), ("zoom_level", .null)]

/-- The `question` handler (search.py lines 506–551): resolve the target
name, fetch a 0.5 km-radius box with tall structures, pick the candidate
by name match, delegate prose to the QA generator. -/
def question_core (svc : Services) (intent : Intent) (req : SearchRequest) :
    Except Unit (Response × List (Bbox × Bool)) :=
  let qc := intent.question_context.getD { target_name := none }
  let step : Except Unit (Option Feature × Option (List ℚ) × List (Bbox × Bool)) :=
    if pyStrOpt qc.target_name then
      let tn := qc.target_name.getD ""
      match svc.geocode tn with
      | some location =>
          let coordinates := [location.lon, location.lat]
          let bbox := expand_bbox_from_centerQ svc.cosD (location.lon, location.lat) (1 / 2)
          match fetch_buildings_in_bbox svc.overpass bbox true with
          | .error e => .error e
          | .ok buildings => .ok (questionPick tn buildings, some coordinates, [(bbox, true)])
      | none => .ok (none, none, [])
    else .ok (none, none, [])
  match step with
  | .error e => .error e
  | .ok (building_data, coordinates, calls) =>
      let answer := svc.qa_answer req.query building_data qc
      .ok ([("intent", .intentVal intent), ("action", .str "question"),
            ("answer", .str answer), ("coordinates", optNumList coordinates),
            ("target", optFeat building_data), ("candidates", .featList []),
            ("should_fly_to", .bool coordinates.isSome),
            ("zoom_level", if coordinates.isSome then .num 16 else .null),
            ("qa_data", match building_data with
                        | some b => .propsVal b.properties
                        | none => .null)], calls)

/-- The `navigate` handler (search.py lines 554–583): geocode the
location query (or the raw query), fly to it with a type-derived zoom. -/
def navigate_core (svc : Services) (intent : Intent) (req : SearchRequest) : Response :=
  let lq := if pyStrOpt intent.location_query then intent.location_query.getD "" else req.query
  match svc.geocode lq with
  | none =>
      [("intent", .intentVal intent),
       ("answer", .str ("I couldn't find '" ++ lq ++ "'. Please try a different location.")),
       ("coordinates", .null), ("target", .null), ("candidates", .featList []),
       ("should_fly_to", .bool false), ("zoom_level", .null)]
  | some location =>
      let zoom_level := calculate_zoom_for_location_type location.location_type
      [("intent", .intentVal intent),
       ("answer", .str ("Flying to " ++ location.display_name)),
       ("coordinates", .numList [location.lon, location.lat]), ("target", .null),
       ("candidates", .featList []), ("should_fly_to", .bool true),
       ("zoom_level", .num zoom_level)]

/-- The `find_building` handler (search.py lines 585–711): the landmark
short-circuit for height queries, then geocoded-area or viewport search
via `find_building_core`. -/
def find_building_route (svc : Services) (intent : Intent) (req : SearchRequest) :
    Except Unit (Response × List (Bbox × Bool)) :=
  let battrs := intent.building_attributes
  let sort_by := battrs.bind BAttrs.sort_by
  if pyStrOpt intent.location_query ∧ sort_by == some "height" then
    let lq := intent.location_query.getD ""
    let landmark := svc.geocode ("tallest building " ++ lq)
    let location := svc.geocode lq
    let hit :=
      match landmark with
      | some lm => structureClassHit lm
      | none => false
    if hit then
      let lm := landmark.getD { lat := 0, lon := 0, display_name := "", location_type := "" }
      let zoom_level := calculate_zoom_for_location_type lm.location_type
      .ok ([("intent", .intentVal intent),
            ("answer", .str ("Flying to " ++ lm.display_name)),
            ("coordinates", .numList [lm.lon, lm.lat]), ("target", .null),
            ("candidates", .featList []), ("should_fly_to", .bool true),
            ("zoom_level", .num (if zoom_level ≠ 0 then zoom_level else 17))], [])
    else
      match location with
      | some loc =>
          let search_center := some [loc.lon, loc.lat]
          let location_name := some loc.display_name
          let radius := pyOrNum intent.search_radius_km 2
          let bbox := expand_bbox_from_centerQ svc.cosD (loc.lon, loc.lat) radius
          find_building_core svc intent req battrs sort_by search_center location_name (some bbox)
      | none => find_building_core svc intent req battrs sort_by none none none
  else if pyStrOpt intent.location_query then
    let lq := intent.location_query.getD ""
    match svc.geocode lq with
    | some loc =>
        let search_center := some [loc.lon, loc.lat]
        let location_name := some loc.display_name
        let radius := pyOrNum intent.search_radius_km 1
        let bbox := expand_bbox_from_centerQ svc.cosD (loc.lon, loc.lat) radius
        find_building_core svc intent req battrs sort_by search_center location_name (some bbox)
    | none => find_building_core svc intent req battrs sort_by none none none
  else
    find_building_core svc intent req battrs sort_by none none none

/-- Embedding of the POST `/search` handler `agentic_search` (search.py
lines 337–757).  The classified `intent` is the external parser's output
for `req.query`; `svc` carries the external collaborators.  The result is
the returned response dict together with the list of
`fetch_buildings_in_bbox` calls made (the Spatial Fetcher call log), or
`.error ()` when an uncaught exception escapes a handler (surfaced by the
route as an HTTP 500).  Unrecognized actions fall through to the
`search_area` arm. -/
def agentic_search (svc : Services) (intent : Intent) (req : SearchRequest) :
    Except Unit (Response × List (Bbox × Bool)) :=
  let action := intent.action.getD "search_area"
  if action == "set_weather" then .ok (set_weather_core intent, [])
  else if action == "set_time" then .ok (set_time_core intent, [])
  else if action == "camera_control" then .ok (camera_control_core intent, [])
  else if action == "delete_building" then .ok (delete_building_core svc intent, [])
  else if action == "question" then question_core svc intent req
  else if action == "navigate" then .ok (navigate_core svc intent req, [])
  else if action == "find_building" then find_building_route svc intent req
  else search_area_core svc intent req

/-! ## Claim C8: the bounding-box clamp -/

/-- C8: the bounding-box clamp is idempotent, the clamped box's span on
each axis never exceeds the `0.01`-degree cap, and when either axis of the
input exceeds the cap the output is the cap-sized box recentered on the
input box's centroid. -/
theorem clampBbox_idempotent_capped (b : Bbox) :
    clampBbox (clampBbox b) = clampBbox b ∧
    (clampBbox b).north - (clampBbox b).south ≤ 1 / 100 ∧
    (clampBbox b).east - (clampBbox b).west ≤ 1 / 100 ∧
    ((b.north - b.south > 1 / 100 ∨ b.east - b.west > 1 / 100) →
      clampBbox b =
        { south := (b.south + b.north) / 2 - 1 / 200
          west := (b.west + b.east) / 2 - 1 / 200
          north := (b.south + b.north) / 2 + 1 / 200
          east := (b.west + b.east) / 2 + 1 / 200 }) := by
  have hcl : ∀ c : Bbox, clampBbox c =
      if c.north - c.south > 1 / 100 ∨ c.east - c.west > 1 / 100 then
        { south := (c.south + c.north) / 2 - 1 / 200
          west := (c.west + c.east) / 2 - 1 / 200
          north := (c.south + c.north) / 2 + 1 / 200
          east := (c.west + c.east) / 2 + 1 / 200 }
      else c := by
    intro c
    show (if c.north - c.south > 1 / 100 ∨ c.east - c.west > 1 / 100 then _ else c) = _
    split <;> [skip; rfl]
    congr 1 <;> norm_num
  by_cases h : b.north - b.south > 1 / 100 ∨ b.east - b.west > 1 / 100
  · rw [hcl b, if_pos h]
    have h2 : ¬((Bbox.mk ((b.south + b.north) / 2 - 1 / 200) ((b.west + b.east) / 2 - 1 / 200)
        ((b.south + b.north) / 2 + 1 / 200) ((b.west + b.east) / 2 + 1 / 200)).north -
        (Bbox.mk ((b.south + b.north) / 2 - 1 / 200) ((b.west + b.east) / 2 - 1 / 200)
        ((b.south + b.north) / 2 + 1 / 200) ((b.west + b.east) / 2 + 1 / 200)).south > 1 / 100 ∨
        (Bbox.mk ((b.south + b.north) / 2 - 1 / 200) ((b.west + b.east) / 2 - 1 / 200)
        ((b.south + b.north) / 2 + 1 / 200) ((b.west + b.east) / 2 + 1 / 200)).east -
        (Bbox.mk ((b.south + b.north) / 2 - 1 / 200) ((b.west + b.east) / 2 - 1 / 200)
        ((b.south + b.north) / 2 + 1 / 200) ((b.west + b.east) / 2 + 1 / 200)).west > 1 / 100) := by
      push_neg
      constructor <;> (simp only) <;> linarith
    refine ⟨by rw [hcl, if_neg h2], by simp only; linarith, by simp only; linarith, fun _ => rfl⟩
  · push_neg at h
    have hb : clampBbox b = b := by
      rw [hcl b, if_neg (by push_neg; exact h)]
    rw [hb]
    exact ⟨hb, h.1, h.2, fun hc => absurd hc (by push_neg; exact h)⟩

/-- Witness for C8 at the concrete box `{south 0, west 0, north 1, east 1}`,
whose spans exceed the cap. -/
theorem clampBbox_idempotent_capped_witness :
    clampBbox (clampBbox ⟨0, 0, 1, 1⟩) = clampBbox ⟨0, 0, 1, 1⟩ ∧
    (clampBbox ⟨0, 0, 1, 1⟩).north - (clampBbox ⟨0, 0, 1, 1⟩).south ≤ 1 / 100 ∧
    (clampBbox ⟨0, 0, 1, 1⟩).east - (clampBbox ⟨0, 0, 1, 1⟩).west ≤ 1 / 100 ∧
    clampBbox ⟨0, 0, 1, 1⟩ =
      ⟨(0 + 1) / 2 - 1 / 200, (0 + 1) / 2 - 1 / 200, (0 + 1) / 2 + 1 / 200, (0 + 1) / 2 + 1 / 200⟩ :=
  ⟨(clampBbox_idempotent_capped ⟨0, 0, 1, 1⟩).1,
   (clampBbox_idempotent_capped ⟨0, 0, 1, 1⟩).2.1,
   (clampBbox_idempotent_capped ⟨0, 0, 1, 1⟩).2.2.1,
   (clampBbox_idempotent_capped ⟨0, 0, 1, 1⟩).2.2.2 (by norm_num)⟩

/-! ## Claim C9: bbox expansion from a center point -/

/-- C9: for every radius `r > 0` and center with `|lat| < 90`, the
expanded box satisfies `south < north` and `west < east`, with the
latitude span `2·(r/111)` and the longitude span
`2·(r/(111·cos(radians lat)))`. -/
theorem expand_bbox_from_center_wellformed (center : ℝ × ℝ) (r : ℝ)
    (hr : 0 < r) (hlat : |center.2| < 90) :
    (expand_bbox_from_center center r).south < (expand_bbox_from_center center r).north ∧
    (expand_bbox_from_center center r).west < (expand_bbox_from_center center r).east ∧
    (expand_bbox_from_center center r).north - (expand_bbox_from_center center r).south
      = 2 * (r / 111) ∧
    (expand_bbox_from_center center r).east - (expand_bbox_from_center center r).west
      = 2 * (r / (111 * Real.cos (center.2 * Real.pi / 180))) := by
  have hpi := Real.pi_pos
  obtain ⟨hlo, hhi⟩ := abs_lt.mp hlat
  have h1 : center.2 * Real.pi / 180 < Real.pi / 2 := by nlinarith
  have h2 : -(Real.pi / 2) < center.2 * Real.pi / 180 := by nlinarith
  have hcos : 0 < Real.cos (center.2 * Real.pi / 180) :=
    Real.cos_pos_of_mem_Ioo ⟨h2, h1⟩
  have hlatoff : 0 < r / 111 := by positivity
  have hlngoff : 0 < r / (111 * Real.cos (center.2 * Real.pi / 180)) := by positivity
  unfold expand_bbox_from_center
  refine ⟨by simp only; linarith, by simp only; linarith, by simp only; ring, by simp only; ring⟩

/-- Witness for C9 at the equator with radius 1 km. -/
theorem expand_bbox_from_center_wellformed_witness :
    (0 : ℝ) < 1 ∧ |((0 : ℝ), (0 : ℝ)).2| < 90 ∧
    (expand_bbox_from_center (0, 0) 1).south < (expand_bbox_from_center (0, 0) 1).north ∧
    (expand_bbox_from_center (0, 0) 1).west < (expand_bbox_from_center (0, 0) 1).east :=
  ⟨by norm_num, by norm_num,
   (expand_bbox_from_center_wellformed (0, 0) 1 (by norm_num) (by norm_num)).1,
   (expand_bbox_from_center_wellformed (0, 0) 1 (by norm_num) (by norm_num)).2.1⟩

/-! ## Claim C3: endpoint failover -/

/-- Characterization of the failover loop: the data used is the first
successful outcome, and the attempt count stops right after it (all
endpoints are attempted when none succeeds). -/
theorem try_endpoints_eq (outcomes : List (Option OverpassData)) :
    (try_endpoints outcomes).1 = outcomes.findSome? id ∧
    (try_endpoints outcomes).2 =
      if (outcomes.findSome? id).isSome
      then (outcomes.takeWhile Option.isNone).length + 1
      else outcomes.length := by
  induction outcomes with
  | nil => simp [try_endpoints]
  | cons o rest ih =>
      cases o with
      | some d => simp [try_endpoints, List.findSome?_cons]
      | none =>
          simp only [try_endpoints, List.findSome?_cons, id]
          refine ⟨ih.1, ?_⟩
          rw [ih.2]
          by_cases hs : (rest.findSome? id).isSome
          · simp only [hs, if_true, List.takeWhile_cons, Option.isNone_none, if_pos rfl,
              List.length_cons]
          · simp only [hs, if_false, List.length_cons]
            simp

/-- All-failing outcome lists yield no data. -/
theorem findSome?_eq_none_of_all_none {l : List (Option OverpassData)}
    (h : ∀ o ∈ l, o = none) : l.findSome? id = none := by
  induction l with
  | nil => simp
  | cons o rest ih =>
      have ho := h o (List.mem_cons_self o rest)
      subst ho
      simp only [List.findSome?_cons, id]
      exact ih fun o hm => h o (List.mem_cons_of_mem _ hm)

/-- C3: when every endpoint fails with a transport error or timeout the
fetch returns the empty list (no exception escapes); in general the loop
uses exactly the first successful endpoint response, attempting endpoints
strictly in list order and stopping right after the first success. -/
theorem fetch_failover_spec :
    (∀ net bbox include_towers,
        (∀ o ∈ net (clampBbox bbox) include_towers, o = none) →
        fetch_buildings_in_bbox net bbox include_towers = .ok []) ∧
    (∀ outcomes : List (Option OverpassData),
        (try_endpoints outcomes).1 = outcomes.findSome? id ∧
        (try_endpoints outcomes).2 =
          if (outcomes.findSome? id).isSome
          then (outcomes.takeWhile Option.isNone).length + 1
          else outcomes.length) := by
  refine ⟨fun net bbox include_towers h => ?_, try_endpoints_eq⟩
  have h1 := (try_endpoints_eq (net (clampBbox bbox) include_towers)).1
  rw [findSome?_eq_none_of_all_none h] at h1
  simp only [fetch_buildings_in_bbox, h1]

/-- Witness for C3: three failing endpoints yield `Except.ok []`. -/
theorem fetch_failover_spec_witness :
    fetch_buildings_in_bbox (fun _ _ => [none, none, none]) ⟨0, 0, 1, 1⟩ true = .ok [] :=
  fetch_failover_spec.1 (fun _ _ => [none, none, none]) ⟨0, 0, 1, 1⟩ true
    (by intro o hm; simpa using hm)

/-! ## Claim C10: polygon centroid with the Null Island sentinel -/

/-- C10: `get_building_center` returns the `[0, 0]` sentinel whenever the
geometry or its coordinate list is missing or empty (never failing), and
the arithmetic mean of the first ring's longitudes and latitudes when the
ring is nonempty. -/
theorem get_building_center_spec :
    (∀ f : Feature, f.geometry = none → get_building_center f = [0, 0]) ∧
    (∀ (f : Feature) (g : Geometry), f.geometry = some g → g.coordinates = [] →
        get_building_center f = [0, 0]) ∧
    (∀ (f : Feature) (g : Geometry) (rest : List (List (ℚ × ℚ))),
        f.geometry = some g → g.coordinates = [] :: rest →
        get_building_center f = [0, 0]) ∧
    (∀ (f : Feature) (g : Geometry) (ring : List (ℚ × ℚ)) (rest : List (List (ℚ × ℚ))),
        f.geometry = some g → g.coordinates = ring :: rest → ring ≠ [] →
        get_building_center f =
          [((ring.map Prod.fst).sum) / ring.length, ((ring.map Prod.snd).sum) / ring.length]) := by
  refine ⟨fun f hg => ?_, fun f g hg hc => ?_, fun f g rest hg hc => ?_,
    fun f g ring rest hg hc hr => ?_⟩
  · simp [get_building_center, hg]
  · simp [get_building_center, hg, hc]
  · simp [get_building_center, hg, hc]
  · have hlen : ring.length > 0 := List.length_pos.mpr hr
    simp [get_building_center, hg, hc, hlen]

/-- Witness for C10: the sentinel on an empty coordinate list, and the
mean on a concrete unit square ring. -/
theorem get_building_center_spec_witness :
    get_building_center ⟨none, some ⟨"Polygon", []⟩, []⟩ = [0, 0] ∧
    get_building_center
        ⟨none, some ⟨"Polygon", [[(0, 0), (2, 0), (2, 2), (0, 2)]]⟩, []⟩ =
      [(0 + (2 + (2 + (0 + 0)))) / 4, (0 + (0 + (2 + (2 + 0)))) / 4] :=
  ⟨get_building_center_spec.2.1 ⟨none, some ⟨"Polygon", []⟩, []⟩ ⟨"Polygon", []⟩ rfl rfl,
   get_building_center_spec.2.2.2
     ⟨none, some ⟨"Polygon", [[(0, 0), (2, 0), (2, 2), (0, 2)]]⟩, []⟩
     ⟨"Polygon", [[(0, 0), (2, 0), (2, 2), (0, 2)]]⟩
     [(0, 0), (2, 0), (2, 2), (0, 2)] [] rfl rfl (by simp)⟩

/-! ## Claim C7: estimated height -/

/-- C7: the estimated height prefers a parseable `height` tag (unit
suffixes stripped, feet converted at 0.3048 exactly when a foot marker
occurs in the lowered raw tag), else falls back to `building:levels`
× 3.0, else 0; unparseable data yields 0 rather than an error.  In
particular `height: "30ft"` gives 9.144 and `building:levels: "10"`
with no height gives 30. -/
theorem estimated_height_spec :
    (∀ (f : Feature) (h : String) (v : ℚ),
        f.properties.lookup "height" = some h → pyFloat? (heightStrip h) = some v →
        (calculate_building_features f).height =
          if hasSubStr "ft" (pyLower h) then v * (3048 / 10000) else v) ∧
    (∀ (f : Feature) (h : String),
        f.properties.lookup "height" = some h → pyFloat? (heightStrip h) = none →
        (calculate_building_features f).height = 0) ∧
    (∀ (f : Feature) (ls : String) (v : ℚ),
        f.properties.lookup "height" = none →
        f.properties.lookup "building:levels" = some ls → pyFloat? ls = some v →
        (calculate_building_features f).height = v * 3) ∧
    (∀ (f : Feature) (ls : String),
        f.properties.lookup "height" = none →
        f.properties.lookup "building:levels" = some ls → pyFloat? ls = none →
        (calculate_building_features f).height = 0) ∧
    (∀ f : Feature,
        f.properties.lookup "height" = none →
        f.properties.lookup "building:levels" = none →
        (calculate_building_features f).height = 0) ∧
    (calculate_building_features ⟨none, none, [("height", "30ft")]⟩).height = 9144 / 1000 ∧
    (calculate_building_features ⟨none, none, [("building:levels", "10")]⟩).height = 30 := by
  refine ⟨fun f h v hh hp => ?_, fun f h hh hp => ?_, fun f ls v hh hl hp => ?_,
    fun f ls hh hl hp => ?_, fun f hh hl => ?_, ?_, ?_⟩
  · simp [calculate_building_features, hh, hp]
  · simp [calculate_building_features, hh, hp]
  · simp [calculate_building_features, hh, hl, hp]
  · simp [calculate_building_features, hh, hl, hp]
  · simp [calculate_building_features, hh, hl]
  · with_unfolding_all decide
  · with_unfolding_all decide

/-- Witness for C7: the height-preference conjunct applied to the
concrete `height: "30ft"` feature. -/
theorem estimated_height_spec_witness :
    (⟨none, none, [("height", "30ft")]⟩ : Feature).properties.lookup "height" = some "30ft" ∧
    pyFloat? (heightStrip "30ft") = some 30 ∧
    (calculate_building_features ⟨none, none, [("height", "30ft")]⟩).height =
      if hasSubStr "ft" (pyLower "30ft") then 30 * (3048 / 10000) else 30 :=
  ⟨by with_unfolding_all decide, by with_unfolding_all decide,
   estimated_height_spec.1 ⟨none, none, [("height", "30ft")]⟩ "30ft" 30
     (by with_unfolding_all decide) (by with_unfolding_all decide)⟩

/-! ## Claim C2: normalization on degenerate input -/

/-- An Overpass node element (not tower-tagged) whose `height` tag is the
realistic OSM value `"30ft"`: line 256–258 of search.py evaluates
`float("30ft".replace("m", "").replace(" ", ""))` = `float("30ft")`
outside any `try`, raising `ValueError`. -/
def badHeightNode : OsmElement :=
  { type := some "node"
    id := some 1
    geometry := none
    lat := some 1
    lon := some 2
    tags := [("height", "30ft")]
    members := [] }

/-- The same node tagged as a tower is normalized fine (the tower branch
is taken before the unguarded parse). -/
def towerHeightNode : OsmElement :=
  { type := some "node"
    id := some 2
    geometry := none
    lat := some 1
    lon := some 2
    tags := [("height", "30ft"), ("man_made", "tower")]
    members := [] }

/-- C2 (refuted — code bug): normalization of a node element carrying a
non-numeric `height` tag raises instead of silently dropping the element,
while the sibling tower-tagged node is converted; so normalization inside
`fetch_buildings_in_bbox` does *not* hold for every raw element list. -/
theorem normalize_raises_on_bad_node_height :
    normalizeElements [badHeightNode] = .error () ∧
    (normalizeElements [towerHeightNode]).toOption.map List.length = some 1 ∧
    (normalizeElements []).toOption.map List.length = some 0 := by
  refine ⟨?_, ?_, ?_⟩
  · with_unfolding_all rfl
  · with_unfolding_all decide
  · with_unfolding_all decide

/-! ## Claim C6: building ranking -/

/-- Unfolding equation for `rank_buildings`. -/
theorem rank_buildings_eq (feats : List Feature) (battrs : Option BAttrs) :
    rank_buildings feats battrs =
      (((feats.filter featIsPolygon).map fun f => (f, calculate_building_features f)).insertionSort
        (rankRel (battrs.bind BAttrs.sort_by))).map Prod.fst := rfl

/-- The ranking is a permutation of exactly the polygon-geometry features. -/
theorem rank_perm (feats : List Feature) (battrs : Option BAttrs) :
    (rank_buildings feats battrs).Perm (feats.filter featIsPolygon) := by
  rw [rank_buildings_eq]
  have h1 := (List.perm_insertionSort (rankRel (battrs.bind BAttrs.sort_by))
    ((feats.filter featIsPolygon).map fun f => (f, calculate_building_features f))).map Prod.fst
  refine h1.trans ?_
  rw [List.map_map]
  have h2 : (Prod.fst ∘ fun f : Feature => (f, calculate_building_features f)) = id := rfl
  rw [h2, List.map_id]

/-- The ranking is descending in the requested criterion's key. -/
theorem rank_sorted (feats : List Feature) (battrs : Option BAttrs) :
    (rank_buildings feats battrs).Pairwise
      (fun a b => rankKey (battrs.bind BAttrs.sort_by) b ≤ rankKey (battrs.bind BAttrs.sort_by) a) := by
  rw [rank_buildings_eq]
  have hsorted := List.sorted_insertionSort (rankRel (battrs.bind BAttrs.sort_by))
    ((feats.filter featIsPolygon).map fun f => (f, calculate_building_features f))
  rw [List.pairwise_map]
  refine hsorted.imp_of_mem ?_
  intro a b ha hb hab
  have ha' := (List.mem_insertionSort (rankRel (battrs.bind BAttrs.sort_by))).mp ha
  have hb' := (List.mem_insertionSort (rankRel (battrs.bind BAttrs.sort_by))).mp hb
  obtain ⟨fa, _, rfl⟩ := List.mem_map.mp ha'
  obtain ⟨fb, _, rfl⟩ := List.mem_map.mp hb'
  exact hab

/-- The ranking is stable: any correctly-ordered pair of polygon features
keeps its relative order (in particular equal-key pairs do). -/
theorem rank_stable (feats : List Feature) (battrs : Option BAttrs) (a b : Feature)
    (hsub : [a, b].Sublist (feats.filter featIsPolygon))
    (hk : rankKey (battrs.bind BAttrs.sort_by) b ≤ rankKey (battrs.bind BAttrs.sort_by) a) :
    [a, b].Sublist (rank_buildings feats battrs) := by
  rw [rank_buildings_eq]
  have hsub2 := hsub.map (fun f => (f, calculate_building_features f))
  have hk' : rankRel (battrs.bind BAttrs.sort_by)
      (a, calculate_building_features a) (b, calculate_building_features b) := hk
  have h3 := List.pair_sublist_insertionSort hk' hsub2
  have h4 := h3.map Prod.fst
  simpa using h4

/-- A polygon feature whose derived metrics are area 100 m², height 5 m
(square ring of side 1/11132°, so the scaled shoelace area is
(111320/11132)² = 100). -/
def underA : Feature :=
  { id := some 1
    geometry := some { type := "Polygon"
                       coordinates := [[(0, 0), (1/11132, 0), (1/11132, 1/11132),
                                        (0, 1/11132), (0, 0)]] }
    properties := [("height", "5")] }

/-- A polygon feature whose derived metrics are area 50 m², height 20 m. -/
def underB : Feature :=
  { id := some 2
    geometry := some { type := "Polygon"
                       coordinates := [[(0, 0), (1/11132, 0), (1/11132, 1/22264),
                                        (0, 1/22264), (0, 0)]] }
    properties := [("height", "20")] }

/-- Derived metrics of `underA`. -/
theorem underA_metrics : calculate_building_features underA = ⟨100, 5⟩ := by
  with_unfolding_all decide

/-- Derived metrics of `underB`. -/
theorem underB_metrics : calculate_building_features underB = ⟨50, 20⟩ := by
  with_unfolding_all decide

/-- The spec's underdeveloped example: keys 100/5 = 20 > 50/20 = 2.5, so
the area-100 feature is ranked first from either input order. -/
theorem rank_under_example :
    rank_buildings [underA, underB] (some ⟨some "underdeveloped", none⟩) = [underA, underB] ∧
    rank_buildings [underB, underA] (some ⟨some "underdeveloped", none⟩) = [underA, underB] := by
  have hPA : featIsPolygon underA = true := by with_unfolding_all decide
  have hPB : featIsPolygon underB = true := by with_unfolding_all decide
  have k1 : rankKeyM (some "underdeveloped") ⟨100, 5⟩ = 20 := by with_unfolding_all decide
  have k2 : rankKeyM (some "underdeveloped") ⟨50, 20⟩ = 5 / 2 := by with_unfolding_all decide
  constructor <;>
    · rw [rank_buildings_eq]
      norm_num [hPA, hPB, underA_metrics, underB_metrics, List.filter,
        List.insertionSort, List.orderedInsert, rankRel, k1, k2]

/-- C6: `rank_buildings` is a stable descending sort by the requested
criterion over exactly the polygon-geometry features; the empty list
ranks to the empty list; the `underdeveloped` key is
`area / max(height, 3)`; and the spec's 100/5-vs-50/20 example orders the
area-100 feature first. -/
theorem rank_buildings_spec :
    (∀ battrs, rank_buildings [] battrs = []) ∧
    (∀ feats battrs, (rank_buildings feats battrs).Perm (feats.filter featIsPolygon)) ∧
    (∀ feats battrs, (rank_buildings feats battrs).Pairwise
        (fun a b => rankKey (battrs.bind BAttrs.sort_by) b ≤ rankKey (battrs.bind BAttrs.sort_by) a)) ∧
    (∀ feats battrs a b, [a, b].Sublist (feats.filter featIsPolygon) →
        rankKey (battrs.bind BAttrs.sort_by) b ≤ rankKey (battrs.bind BAttrs.sort_by) a →
        [a, b].Sublist (rank_buildings feats battrs)) ∧
    (∀ f, rankKey (some "underdeveloped") f =
        (calculate_building_features f).area / max (calculate_building_features f).height 3) ∧
    calculate_building_features underA = ⟨100, 5⟩ ∧
    calculate_building_features underB = ⟨50, 20⟩ ∧
    rank_buildings [underA, underB] (some ⟨some "underdeveloped", none⟩) = [underA, underB] ∧
    rank_buildings [underB, underA] (some ⟨some "underdeveloped", none⟩) = [underA, underB] :=
  ⟨fun _ => rfl, rank_perm, rank_sorted, rank_stable, fun _ => rfl,
   underA_metrics, underB_metrics, rank_under_example.1, rank_under_example.2⟩

/-- Witness for C6: the empty ranking, and the stability conjunct at the
concrete underdeveloped pair. -/
theorem rank_buildings_spec_witness :
    rank_buildings [] none = [] ∧
    [underA, underB].Sublist
      (rank_buildings [underA, underB] (some ⟨some "underdeveloped", none⟩)) := by
  have hfe : List.filter featIsPolygon [underA, underB] = [underA, underB] := by
    simp [List.filter, (by with_unfolding_all decide : featIsPolygon underA = true),
      (by with_unfolding_all decide : featIsPolygon underB = true)]
  refine ⟨rank_buildings_spec.1 none,
    rank_buildings_spec.2.2.2.1 [underA, underB] (some ⟨some "underdeveloped", none⟩)
      underA underB (hfe ▸ List.Sublist.refl _) ?_⟩
  show rankKeyM _ (calculate_building_features underB) ≤
    rankKeyM _ (calculate_building_features underA)
  have k1 : rankKeyM (some "underdeveloped") (⟨100, 5⟩ : BMetrics) = 20 := by
    with_unfolding_all decide
  have k2 : rankKeyM (some "underdeveloped") (⟨50, 20⟩ : BMetrics) = 5 / 2 := by
    with_unfolding_all decide
  rw [underA_metrics, underB_metrics]
  show rankKeyM (some "underdeveloped") _ ≤ rankKeyM (some "underdeveloped") _
  rw [k1, k2]
  norm_num

/-! ## Claim C1: the landmark short-circuit of `find_building` -/

/-- Geocoder fixture: the landmark probe resolves to a structure-class
`poi`, the bare location to a city, as for "tallest building Toronto". -/
def svcToronto : Services :=
  { geocode := fun s =>
      if s == "tallest building Toronto" then
        some { lat := 436426 / 10000
               lon := -793871 / 10000
               display_name := "CN Tower, Toronto, Ontario, Canada"
               location_type := "poi" }
      else if s == "Toronto" then
        some { lat := 4365 / 100
               lon := -7938 / 100
               display_name := "Toronto, Ontario, Canada"
               location_type := "city" }
      else none
    overpass := fun _ _ => [none, none, none]
    cosD := fun _ => 1
    qa_answer := fun _ _ _ => "qa-answer"
    search_answer := fun _ _ _ _ => "search-answer" }

/-- The landmark probe's resolved location in the fixture. -/
def cnTowerLoc : Location :=
  { lat := 436426 / 10000
    lon := -793871 / 10000
    display_name := "CN Tower, Toronto, Ontario, Canada"
    location_type := "poi" }

/-- Parsed intent for "tallest building in Toronto". -/
def intentTallestToronto : Intent :=
  { action := some "find_building"
    location_query := some "Toronto"
    building_attributes := some { sort_by := some "height", limit := none }
    search_radius_km := none
    question_context := none
    weather_settings := none
    time_settings := none
    camera_settings := none }

/-- A request with no viewport. -/
def reqPlain : SearchRequest :=
  { query := "tallest building in Toronto", current_bounds := none, current_center := none }

/-- C1 (amended): when the landmark probe of a height-sorted
`find_building` resolves to a structure-class landmark, the handler
returns a navigation-style response — `shouldFlyTo = true`,
`target = null`, no Spatial Fetcher call — but the response carries *no*
top-level `action` key (so not `action="navigate"`; the `action` inside
the echoed intent stays `find_building`). -/
theorem find_building_landmark_shortcircuit (svc : Services) (intent : Intent)
    (req : SearchRequest) (lq : String) (lm : Location)
    (ha : intent.action = some "find_building")
    (hl : intent.location_query = some lq) (hlq : lq ≠ "")
    (hs : intent.building_attributes.bind BAttrs.sort_by = some "height")
    (hgeo : svc.geocode ("tallest building " ++ lq) = some lm)
    (hhit : structureClassHit lm = true) :
    agentic_search svc intent req =
      .ok ([("intent", .intentVal intent),
            ("answer", .str ("Flying to " ++ lm.display_name)),
            ("coordinates", .numList [lm.lon, lm.lat]), ("target", .null),
            ("candidates", .featList []), ("should_fly_to", .bool true),
            ("zoom_level", .num (if calculate_zoom_for_location_type lm.location_type ≠ 0
                                 then calculate_zoom_for_location_type lm.location_type
                                 else 17))],
           []) ∧
    (∀ r log, agentic_search svc intent req = .ok (r, log) →
      r.lookup "action" = none ∧ r.lookup "should_fly_to" = some (.bool true) ∧
      r.lookup "target" = some .null ∧ log = []) := by
  have hmain : agentic_search svc intent req =
      .ok ([("intent", .intentVal intent),
            ("answer", .str ("Flying to " ++ lm.display_name)),
            ("coordinates", .numList [lm.lon, lm.lat]), ("target", .null),
            ("candidates", .featList []), ("should_fly_to", .bool true),
            ("zoom_level", .num (if calculate_zoom_for_location_type lm.location_type ≠ 0
                                 then calculate_zoom_for_location_type lm.location_type
                                 else 17))],
           []) := by
    simp only [agentic_search, find_building_route, ha, hl, hs, hgeo, hhit, pyStrOpt,
      Option.getD_some, Option.bind_some]
    simp [hlq]
  refine ⟨hmain, fun r log h => ?_⟩
  rw [hmain] at h
  obtain ⟨h1, h2⟩ := Prod.mk.injEq .. ▸ Except.ok.inj h
  subst h1
  subst h2
  refine ⟨?_, ?_, ?_, rfl⟩ <;> simp [List.lookup]

/-- Counterexample to C1 as stated: on the concrete Toronto fixture the
short-circuit response contains *no* `action` key at all (so in
particular not `action="navigate"`), while `shouldFlyTo=true`,
`target=null` and the empty fetch log do hold. -/
theorem find_building_landmark_action_counterexample :
    ((agentic_search svcToronto intentTallestToronto reqPlain).toOption.map fun p =>
       (p.1.lookup "action", p.1.lookup "should_fly_to", p.1.lookup "target", p.2)) =
      some (none, some (.bool true), some .null, []) := by
  with_unfolding_all rfl

/-- Witness for C1 (amended) on the Toronto fixture. -/
theorem find_building_landmark_shortcircuit_witness :
    agentic_search svcToronto intentTallestToronto reqPlain =
      .ok ([("intent", .intentVal intentTallestToronto),
            ("answer", .str ("Flying to " ++ cnTowerLoc.display_name)),
            ("coordinates", .numList [cnTowerLoc.lon, cnTowerLoc.lat]), ("target", .null),
            ("candidates", .featList []), ("should_fly_to", .bool true),
            ("zoom_level", .num (if calculate_zoom_for_location_type cnTowerLoc.location_type ≠ 0
                                 then calculate_zoom_for_location_type cnTowerLoc.location_type
                                 else 17))],
           []) :=
  (find_building_landmark_shortcircuit svcToronto intentTallestToronto reqPlain
    "Toronto" cnTowerLoc rfl rfl (by decide) (by decide)
    (by with_unfolding_all rfl) (by with_unfolding_all rfl)).1

/-! ## Claim C4: question-handler target resolution -/

/-- C4 (amended): for a question intent whose target name geocodes, the
handler makes exactly one Spatial Fetcher call, over the box expanded
from the resolved point with radius **0.5 km** (not 1 km) and with tall
structures included; the target is the first case-insensitive
substring-in-either-direction name match among the candidates, else the
first candidate, else none when no candidates were fetched. -/
theorem question_target_resolution (svc : Services) (intent : Intent) (req : SearchRequest)
    (qc : QuestionContext) (tn : String) (loc : Location) (buildings : List Feature)
    (ha : intent.action = some "question")
    (hqc : intent.question_context = some qc)
    (htn : qc.target_name = some tn) (htn0 : tn ≠ "")
    (hgeo : svc.geocode tn = some loc)
    (hfetch : fetch_buildings_in_bbox svc.overpass
        (expand_bbox_from_centerQ svc.cosD (loc.lon, loc.lat) (1 / 2)) true = .ok buildings) :
    agentic_search svc intent req =
      .ok ([("intent", .intentVal intent), ("action", .str "question"),
            ("answer", .str (svc.qa_answer req.query (questionPick tn buildings) qc)),
            ("coordinates", .numList [loc.lon, loc.lat]),
            ("target", optFeat (questionPick tn buildings)),
            ("candidates", .featList []), ("should_fly_to", .bool true),
            ("zoom_level", .num 16),
            ("qa_data", match questionPick tn buildings with
                        | some b => .propsVal b.properties
                        | none => .null)],
           [(expand_bbox_from_centerQ svc.cosD (loc.lon, loc.lat) (1 / 2), true)]) ∧
    (buildings = [] → questionPick tn buildings = none) ∧
    (∀ b, buildings.find? (nameMatchQ tn) = some b → questionPick tn buildings = some b) ∧
    (buildings ≠ [] → buildings.find? (nameMatchQ tn) = none →
      questionPick tn buildings = buildings.head?) := by
  refine ⟨?_, ?_, ?_, ?_⟩
  · simp only [agentic_search, question_core, ha, hqc, htn, hgeo, hfetch, pyStrOpt,
      Option.getD_some]
    simp [htn0, optNumList]
  · intro hb; subst hb; simp [questionPick]
  · intro b hfind
    cases buildings with
    | nil => simp [List.find?] at hfind
    | cons x xs => simp [questionPick, hfind]
  · intro hne hfind
    cases buildings with
    | nil => exact absurd rfl hne
    | cons x xs => simp [questionPick, hfind]

/-- Oracle fixture for the question scenario: the target geocodes to
`(lon, lat) = (-79, 43)`; every spatial endpoint fails; `cosD` is the
constant 1 (its value at the equator). -/
def qSvc : Services :=
  { geocode := fun s =>
      if s == "CN Tower" then
        some { lat := 43, lon := -79, display_name := "CN Tower", location_type := "poi" }
      else none
    overpass := fun _ _ => [none]
    cosD := fun _ => 1
    qa_answer := fun _ _ _ => "qa-answer"
    search_answer := fun _ _ _ _ => "search-answer" }

/-- Parsed intent for a question about the CN Tower. -/
def intentQuestion : Intent :=
  { action := some "question"
    location_query := none
    building_attributes := none
    search_radius_km := none
    question_context := some { target_name := some "CN Tower" }
    weather_settings := none
    time_settings := none
    camera_settings := none }

/-- Counterexample to C4 as stated: on the concrete question run the
single fetch is made over the box of radius 0.5 km — its latitude span is
`1/111` degree, whereas the 1 km-radius box of the claim would have span
`2/111` — so the fetched box is not the 1 km-radius box. -/
theorem question_radius_counterexample :
    ((agentic_search qSvc intentQuestion reqPlain).toOption.map Prod.snd) =
      some [(expand_bbox_from_centerQ (fun _ => 1) (-79, 43) (1 / 2), true)] ∧
    (expand_bbox_from_centerQ (fun _ => 1) (-79, 43) (1 / 2)).north -
      (expand_bbox_from_centerQ (fun _ => 1) (-79, 43) (1 / 2)).south = 1 / 111 ∧
    (expand_bbox_from_centerQ (fun _ => 1) (-79, 43) 1).north -
      (expand_bbox_from_centerQ (fun _ => 1) (-79, 43) 1).south = 2 / 111 ∧
    expand_bbox_from_centerQ (fun _ => 1) (-79, 43) (1 / 2) ≠
      expand_bbox_from_centerQ (fun _ => 1) (-79, 43) 1 := by
  refine ⟨by with_unfolding_all rfl, ?_, ?_, ?_⟩
  · simp only [expand_bbox_from_centerQ]; norm_num
  · simp only [expand_bbox_from_centerQ]; norm_num
  · simp only [expand_bbox_from_centerQ, ne_eq, Bbox.mk.injEq]
    norm_num

/-- Witness for C4 (amended) on the `qSvc` fixture with an empty fetch
result. -/
theorem question_target_resolution_witness :
    agentic_search qSvc intentQuestion reqPlain =
      .ok ([("intent", .intentVal intentQuestion), ("action", .str "question"),
            ("answer", .str "qa-answer"),
            ("coordinates", .numList [-79, 43]),
            ("target", optFeat (questionPick "CN Tower" [])),
            ("candidates", .featList []), ("should_fly_to", .bool true),
            ("zoom_level", .num 16), ("qa_data", .null)],
           [(expand_bbox_from_centerQ qSvc.cosD (-79, 43) (1 / 2), true)]) :=
  (question_target_resolution qSvc intentQuestion reqPlain
    { target_name := some "CN Tower" } "CN Tower"
    { lat := 43, lon := -79, display_name := "CN Tower", location_type := "poi" } []
    rfl rfl rfl (by decide) (by with_unfolding_all rfl) (by with_unfolding_all rfl)).1

/-! ## Claim C5: the uniform response contract -/

/-- The seven keys the response contract requires on every response. -/
def requiredKeys : List String :=
  ["intent", "answer", "coordinates", "target", "candidates", "should_fly_to", "zoom_level"]

/-- Every `search_area` response carries the required keys. -/
theorem search_area_core_keys (svc : Services) (intent : Intent) (req : SearchRequest)
    (resp : Response) (log : List (Bbox × Bool))
    (h : search_area_core svc intent req = .ok (resp, log)) :
    ∀ k ∈ requiredKeys, (resp.lookup k).isSome := by
  unfold search_area_core at h
  repeat' split at h
  all_goals first
    | (simp only [Except.ok.injEq, Prod.mk.injEq] at h
       obtain ⟨h1, _⟩ := h
       subst h1
       simp [requiredKeys, List.lookup])
    | simp at h

/-- Every response of the shared `find_building` tail carries the
required keys. -/
theorem find_building_core_keys (svc : Services) (intent : Intent) (req : SearchRequest)
    (battrs : Option BAttrs) (sort_by : Option String) (sc : Option (List ℚ))
    (ln : Option String) (bb : Option Bbox)
    (resp : Response) (log : List (Bbox × Bool))
    (h : find_building_core svc intent req battrs sort_by sc ln bb = .ok (resp, log)) :
    ∀ k ∈ requiredKeys, (resp.lookup k).isSome := by
  simp only [find_building_core] at h
  repeat' split at h
  all_goals first
    | (simp only [Except.ok.injEq, Prod.mk.injEq] at h
       obtain ⟨h1, _⟩ := h
       subst h1
       simp [requiredKeys, List.lookup])
    | simp at h

/-- Every `find_building` response carries the required keys. -/
theorem find_building_route_keys (svc : Services) (intent : Intent) (req : SearchRequest)
    (resp : Response) (log : List (Bbox × Bool))
    (h : find_building_route svc intent req = .ok (resp, log)) :
    ∀ k ∈ requiredKeys, (resp.lookup k).isSome := by
  simp only [find_building_route] at h
  repeat' split at h
  all_goals first
    | (simp only [Except.ok.injEq, Prod.mk.injEq] at h
       obtain ⟨h1, _⟩ := h
       subst h1
       simp [requiredKeys, List.lookup])
    | exact find_building_core_keys _ _ _ _ _ _ _ _ _ _ h

/-- Every `question` response carries the required keys. -/
theorem question_core_keys (svc : Services) (intent : Intent) (req : SearchRequest)
    (resp : Response) (log : List (Bbox × Bool))
    (h : question_core svc intent req = .ok (resp, log)) :
    ∀ k ∈ requiredKeys, (resp.lookup k).isSome := by
  simp only [question_core] at h
  repeat' split at h
  all_goals first
    | (simp only [Except.ok.injEq, Prod.mk.injEq] at h
       obtain ⟨h1, _⟩ := h
       subst h1
       simp [requiredKeys, List.lookup])
    | simp at h

/-- Every `set_weather` response carries the required keys. -/
theorem set_weather_core_keys (intent : Intent) :
    ∀ k ∈ requiredKeys, ((set_weather_core intent).lookup k).isSome := by
  simp [set_weather_core, requiredKeys, List.lookup]

/-- Every `set_time` response carries the required keys. -/
theorem set_time_core_keys (intent : Intent) :
    ∀ k ∈ requiredKeys, ((set_time_core intent).lookup k).isSome := by
  simp [set_time_core, requiredKeys, List.lookup]

/-- Every `camera_control` response carries the required keys. -/
theorem camera_control_core_keys (intent : Intent) :
    ∀ k ∈ requiredKeys, ((camera_control_core intent).lookup k).isSome := by
  simp [camera_control_core, requiredKeys, List.lookup]

/-- Every `delete_building` response carries the required keys. -/
theorem delete_building_core_keys (svc : Services) (intent : Intent) :
    ∀ k ∈ requiredKeys, ((delete_building_core svc intent).lookup k).isSome := by
  intro k hk
  unfold delete_building_core
  split
  · cases hgeo : svc.geocode (intent.location_query.getD "") with
    | some location => fin_cases hk <;> simp [hgeo, List.lookup]
    | none => fin_cases hk <;> simp [hgeo, List.lookup]
  · fin_cases hk <;> simp [List.lookup]

/-- Every `navigate` response carries the required keys. -/
theorem navigate_core_keys (svc : Services) (intent : Intent) (req : SearchRequest) :
    ∀ k ∈ requiredKeys, ((navigate_core svc intent req).lookup k).isSome := by
  intro k hk
  unfold navigate_core
  cases hgeo : svc.geocode (if pyStrOpt intent.location_query = true
      then intent.location_query.getD "" else req.query) with
  | some location => fin_cases hk <;> simp [hgeo, List.lookup]
  | none => fin_cases hk <;> simp [hgeo, List.lookup]

/-- C5: for every action value (recognized or not) and every combination
of resolver/fetcher outcomes, any response the route returns contains all
of `intent`, `answer`, `coordinates`, `target`, `candidates`,
`should_fly_to` and `zoom_level` (nullable fields are explicit `null`
values, never omitted keys). -/
theorem response_contract_keys (svc : Services) (intent : Intent) (req : SearchRequest)
    (resp : Response) (log : List (Bbox × Bool))
    (h : agentic_search svc intent req = .ok (resp, log)) :
    ∀ k ∈ requiredKeys, (resp.lookup k).isSome := by
  simp only [agentic_search] at h
  repeat' split at h
  all_goals first
    | (simp only [Except.ok.injEq, Prod.mk.injEq] at h
       obtain ⟨h1, _⟩ := h
       subst h1
       first
         | exact set_weather_core_keys intent
         | exact set_time_core_keys intent
         | exact camera_control_core_keys intent
         | exact delete_building_core_keys svc intent
         | exact navigate_core_keys svc intent req)
    | exact question_core_keys _ _ _ _ _ h
    | exact find_building_route_keys _ _ _ _ _ h
    | exact search_area_core_keys _ _ _ _ _ h

/-- A minimal `set_weather` intent fixture. -/
def intentWeather : Intent :=
  { action := some "set_weather"
    location_query := none
    building_attributes := none
    search_radius_km := none
    question_context := none
    weather_settings := none
    time_settings := none
    camera_settings := none }

/-- Witness for C5 on a concrete `set_weather` run: each required key is
present in the returned response. -/
theorem response_contract_keys_witness :
    ((set_weather_core intentWeather).lookup "intent").isSome = true ∧
    ((set_weather_core intentWeather).lookup "answer").isSome = true ∧
    ((set_weather_core intentWeather).lookup "coordinates").isSome = true ∧
    ((set_weather_core intentWeather).lookup "target").isSome = true ∧
    ((set_weather_core intentWeather).lookup "candidates").isSome = true ∧
    ((set_weather_core intentWeather).lookup "should_fly_to").isSome = true ∧
    ((set_weather_core intentWeather).lookup "zoom_level").isSome = true :=
  have h := response_contract_keys qSvc intentWeather reqPlain
    (set_weather_core intentWeather) [] (by with_unfolding_all rfl)
  ⟨h "intent" (by decide), h "answer" (by decide), h "coordinates" (by decide),
   h "target" (by decide), h "candidates" (by decide), h "should_fly_to" (by decide),
   h "zoom_level" (by decide)⟩
